import Mathlib

/-!
Verification of `line-transcriber` (`src/index.ts`), a Cloudflare Worker that
receives LINE webhook events, transcribes audio/video messages via the
ElevenLabs speech-to-text service and replies with the transcript.

The development shallowly embeds the worker:

* `validateSignature` is embedded over an executable model of the platform
  crypto primitives it invokes (`crypto.subtle` HMAC-SHA256, `TextEncoder`
  UTF-8 encoding and `btoa` base64 encoding), implemented here on `List Nat`
  byte sequences following FIPS 180-4 / RFC 2104 / RFC 4648.
* `handleEvent` and the `/webhook` endpoint are embedded as pure functions of
  the incoming request and an explicit external world (the outcomes of the
  outbound network calls), producing a trace of outbound calls and an
  `Except Fault` result; a rejected promise / thrown exception is the
  `Except.error` case, which the Hono framework maps to an HTTP 500.
-/

set_option maxRecDepth 100000

namespace LineTranscriber

/-- Truncation to a 32-bit word, applied wherever the JavaScript/WebCrypto
arithmetic is 32-bit. -/
def w32 (n : Nat) : Nat := n % 4294967296

/-- Right rotation of a 32-bit word. -/
def rotr (n x : Nat) : Nat := w32 ((x >>> n) ||| (x <<< (32 - n)))

/-- Bitwise complement of a 32-bit word. -/
def compl32 (x : Nat) : Nat := x ^^^ 4294967295

/-- SHA-256 small sigma 0. -/
def ssig0 (x : Nat) : Nat := rotr 7 x ^^^ rotr 18 x ^^^ (x >>> 3)

/-- SHA-256 small sigma 1. -/
def ssig1 (x : Nat) : Nat := rotr 17 x ^^^ rotr 19 x ^^^ (x >>> 10)

/-- SHA-256 big sigma 0. -/
def bsig0 (x : Nat) : Nat := rotr 2 x ^^^ rotr 13 x ^^^ rotr 22 x

/-- SHA-256 big sigma 1. -/
def bsig1 (x : Nat) : Nat := rotr 6 x ^^^ rotr 11 x ^^^ rotr 25 x

/-- SHA-256 choice function. -/
def chF (e f g : Nat) : Nat := (e &&& f) ^^^ (compl32 e &&& g)

/-- SHA-256 majority function. -/
def majF (a b c : Nat) : Nat := (a &&& b) ^^^ (a &&& c) ^^^ (b &&& c)

/-- The 64 SHA-256 round constants (fractional parts of the cube roots of the
first 64 primes). -/
def sha256K : List Nat :=
  [1116352408, 1899447441, 3049323471, 3921009573,
   961987163, 1508970993, 2453635748, 2870763221,
   3624381080, 310598401, 607225278, 1426881987,
   1925078388, 2162078206, 2614888103, 3248222580,
   3835390401, 4022224774, 264347078, 604807628,
   770255983, 1249150122, 1555081692, 1996064986,
   2554220882, 2821834349, 2952996808, 3210313671,
   3336571891, 3584528711, 113926993, 338241895,
   666307205, 773529912, 1294757372, 1396182291,
   1695183700, 1986661051, 2177026350, 2456956037,
   2730485921, 2820302411, 3259730800, 3345764771,
   3516065817, 3600352804, 4094571909, 275423344,
   430227734, 506948616, 659060556, 883997877,
   958139571, 1322822218, 1537002063, 1747873779,
   1955562222, 2024104815, 2227730452, 2361852424,
   2428436474, 2756734187, 3204031479, 3329325298]

/-- The SHA-256 chaining state: eight 32-bit words. -/
structure Sha256State where
  h0 : Nat
  h1 : Nat
  h2 : Nat
  h3 : Nat
  h4 : Nat
  h5 : Nat
  h6 : Nat
  h7 : Nat
deriving DecidableEq, Repr

/-- The SHA-256 initial hash value (fractional parts of the square roots of
the first 8 primes). -/
def sha256Init : Sha256State :=
  ⟨1779033703, 3144134277, 1013904242, 2773480762,
   1359893119, 2600822924, 528734635, 1541459225⟩

/-- One SHA-256 compression round: fold the working variables over a pair of
round constant and message-schedule word. -/
def sha256Round (st : Sha256State) (kw : Nat × Nat) : Sha256State :=
  let t1 := w32 (st.h7 + bsig1 st.h4 + chF st.h4 st.h5 st.h6 + kw.1 + kw.2)
  let t2 := w32 (bsig0 st.h0 + majF st.h0 st.h1 st.h2)
  ⟨w32 (t1 + t2), st.h0, st.h1, st.h2, w32 (st.h3 + t1), st.h4, st.h5, st.h6⟩

/-- Extend the message schedule: prepend `n` further words to the reversed
accumulator `acc` (most recent word first). -/
def sha256Extend : Nat → List Nat → List Nat
  | 0, acc => acc.reverse
  | n + 1, acc =>
      let word := w32 (ssig1 (acc.getD 1 0) + acc.getD 6 0 +
        ssig0 (acc.getD 14 0) + acc.getD 15 0)
      sha256Extend n (word :: acc)

/-- The 64-word message schedule of a 16-word block. -/
def sha256Schedule (block : List Nat) : List Nat :=
  sha256Extend 48 block.reverse

/-- Compress one 16-word block into the chaining state. -/
def sha256Compress (st : Sha256State) (block : List Nat) : Sha256State :=
  let f := (List.zip sha256K (sha256Schedule block)).foldl sha256Round st
  ⟨w32 (st.h0 + f.h0), w32 (st.h1 + f.h1), w32 (st.h2 + f.h2), w32 (st.h3 + f.h3),
   w32 (st.h4 + f.h4), w32 (st.h5 + f.h5), w32 (st.h6 + f.h6), w32 (st.h7 + f.h7)⟩

/-- Pack a byte list into big-endian 32-bit words (four bytes per word). -/
def toWords : List Nat → List Nat
  | b0 :: b1 :: b2 :: b3 :: rest =>
      (((b0 * 256 + b1) * 256 + b2) * 256 + b3) :: toWords rest
  | _ => []

/-- Fold the compression function over the word stream, 16 words per block. -/
def sha256Blocks (st : Sha256State) : List Nat → Sha256State
  | w0 :: w1 :: w2 :: w3 :: w4 :: w5 :: w6 :: w7 ::
    w8 :: w9 :: w10 :: w11 :: w12 :: w13 :: w14 :: w15 :: rest =>
      sha256Blocks
        (sha256Compress st [w0, w1, w2, w3, w4, w5, w6, w7,
                            w8, w9, w10, w11, w12, w13, w14, w15]) rest
  | _ => st

/-- Big-endian 8-byte encoding of the 64-bit message length in bits. -/
def lengthBytes64 (n : Nat) : List Nat :=
  [(n >>> 56) % 256, (n >>> 48) % 256, (n >>> 40) % 256, (n >>> 32) % 256,
   (n >>> 24) % 256, (n >>> 16) % 256, (n >>> 8) % 256, n % 256]

/-- SHA-256 padding: append `0x80`, zero bytes up to 56 mod 64, and the
64-bit bit length. -/
def sha256Pad (msg : List Nat) : List Nat :=
  let L := msg.length
  let k := (119 - L % 64) % 64
  msg ++ 0x80 :: List.replicate k 0 ++ lengthBytes64 (8 * L)

/-- The four big-endian bytes of a 32-bit word. -/
def wordBytes (w : Nat) : List Nat :=
  [(w >>> 24) % 256, (w >>> 16) % 256, (w >>> 8) % 256, w % 256]

/-- The 32 digest bytes of a final chaining state. -/
def digestBytes (st : Sha256State) : List Nat :=
  wordBytes st.h0 ++ wordBytes st.h1 ++ wordBytes st.h2 ++ wordBytes st.h3 ++
  wordBytes st.h4 ++ wordBytes st.h5 ++ wordBytes st.h6 ++ wordBytes st.h7

/-- SHA-256 of a byte sequence (FIPS 180-4), as 32 digest bytes. -/
def sha256 (msg : List Nat) : List Nat :=
  digestBytes (sha256Blocks sha256Init (toWords (sha256Pad msg)))

/-- HMAC-SHA256 (RFC 2104) with a 64-byte block: a key longer than the block
is first hashed, the key is zero-padded to the block length, and the digest is
`H((key xor opad) ++ H((key xor ipad) ++ msg))`.  This is the operation that
`crypto.subtle.importKey` of a raw HMAC/SHA-256 key followed by
`crypto.subtle.sign("HMAC", key, body)` performs. -/
def hmacSha256 (key msg : List Nat) : List Nat :=
  let k0 := if 64 < key.length then sha256 key else key
  let kp := k0 ++ List.replicate (64 - k0.length) 0
  sha256 ((kp.map (fun b => b ^^^ 0x5c)) ++
    sha256 ((kp.map (fun b => b ^^^ 0x36)) ++ msg))

/-- The base64 alphabet of RFC 4648 section 4, as used by `btoa`. -/
def base64Alphabet : List Char :=
  "ABCDEFGHIJKLMNOPQRSTUVWXYZabcdefghijklmnopqrstuvwxyz0123456789+/".toList

/-- The base64 character of a six-bit value. -/
def sixbitChar (n : Nat) : Char := base64Alphabet.getD n 'A'

/-- The six-bit value of a base64 character (padding and foreign characters
map to 0; only used on alphabet characters in this development). -/
def sixbitVal (c : Char) : Nat :=
  ((base64Alphabet.zip (List.range 64)).lookup c).getD 0

/-- Base64 encoding of a byte list (RFC 4648 with `=` padding), three input
bytes per four output characters; the model of
`btoa(String.fromCharCode(...bytes))`. -/
def base64EncodeList : List Nat → List Char
  | [] => []
  | [b0] =>
      [sixbitChar (b0 / 4), sixbitChar (b0 % 4 * 16), '=', '=']
  | [b0, b1] =>
      [sixbitChar (b0 / 4), sixbitChar (b0 % 4 * 16 + b1 / 16),
       sixbitChar (b1 % 16 * 4), '=']
  | b0 :: b1 :: b2 :: rest =>
      sixbitChar (b0 / 4) :: sixbitChar (b0 % 4 * 16 + b1 / 16) ::
      sixbitChar (b1 % 16 * 4 + b2 / 64) :: sixbitChar (b2 % 64) ::
      base64EncodeList rest

/-- Base64 encoding as a string. -/
def base64Encode (bytes : List Nat) : String := String.mk (base64EncodeList bytes)

/-- Base64 decoding of a character list produced by `base64EncodeList`,
used only to establish that the encoding is injective. -/
def base64DecodeList : List Char → List Nat
  | c0 :: c1 :: c2 :: c3 :: rest =>
      if c2 = '=' then [sixbitVal c0 * 4 + sixbitVal c1 / 16]
      else if c3 = '=' then
        [sixbitVal c0 * 4 + sixbitVal c1 / 16,
         sixbitVal c1 % 16 * 16 + sixbitVal c2 / 4]
      else
        (sixbitVal c0 * 4 + sixbitVal c1 / 16) ::
        (sixbitVal c1 % 16 * 16 + sixbitVal c2 / 4) ::
        (sixbitVal c2 % 4 * 64 + sixbitVal c3) ::
        base64DecodeList rest
  | _ => []

/-- UTF-8 encoding of a Unicode code point, the byte sequence `TextEncoder`
produces for it. -/
def utf8EncodeCodepoint (n : Nat) : List Nat :=
  if n < 0x80 then [n]
  else if n < 0x800 then [0xc0 + n / 64, 0x80 + n % 64]
  else if n < 0x10000 then
    [0xe0 + n / 4096, 0x80 + n / 64 % 64, 0x80 + n % 64]
  else
    [0xf0 + n / 262144, 0x80 + n / 4096 % 64, 0x80 + n / 64 % 64, 0x80 + n % 64]

/-- The UTF-8 bytes of a string: the model of `new TextEncoder().encode(s)`. -/
def utf8Bytes (s : String) : List Nat :=
  s.data.flatMap (fun c => utf8EncodeCodepoint c.toNat)

/-- Embedding of `validateSignature` (src/index.ts:30-50): UTF-8 encode the
secret and the body, HMAC-SHA256 sign the body with the secret as raw key,
base64 the digest and compare it with the provided signature string. -/
def validateSignature (secret body signature : String) : Bool :=
  let keyData := utf8Bytes secret
  let bodyData := utf8Bytes body
  let sig := hmacSha256 keyData bodyData
  let expectedSignature := base64Encode sig
  expectedSignature == signature

/-- FIPS 180-4 test vector: the digest of the empty message. -/
theorem sha256_empty :
    sha256 [] =
      [0xe3, 0xb0, 0xc4, 0x42, 0x98, 0xfc, 0x1c, 0x14,
       0x9a, 0xfb, 0xf4, 0xc8, 0x99, 0x6f, 0xb9, 0x24,
       0x27, 0xae, 0x41, 0xe4, 0x64, 0x9b, 0x93, 0x4c,
       0xa4, 0x95, 0x99, 0x1b, 0x78, 0x52, 0xb8, 0x55] := by decide

/-- FIPS 180-4 test vector: the digest of the three bytes of "abc". -/
theorem sha256_abc :
    sha256 [0x61, 0x62, 0x63] =
      [0xba, 0x78, 0x16, 0xbf, 0x8f, 0x01, 0xcf, 0xea,
       0x41, 0x41, 0x40, 0xde, 0x5d, 0xae, 0x22, 0x23,
       0xb0, 0x03, 0x61, 0xa3, 0x96, 0x17, 0x7a, 0x9c,
       0xb4, 0x10, 0xff, 0x61, 0xf2, 0x00, 0x15, 0xad] := by decide

/-- Worker configuration (`Cloudflare.Env`): the three environment secrets. -/
structure Env where
  LINE_CHANNEL_SECRET : String
  LINE_CHANNEL_ACCESS_TOKEN : String
  ELEVENLABS_API_KEY : String
deriving DecidableEq, Repr

/-- The `source` object of a LINE event; its `userId` field may be absent. -/
structure Source where
  userId : Option String
deriving DecidableEq, Repr

/-- The `message` object of a LINE event, with the fields `handleEvent`
reads: `type` and `id`. -/
structure Message where
  type : String
  id : String
deriving DecidableEq, Repr

/-- A LINE webhook event, with the fields `handleEvent` reads.  The incoming
JSON is untyped, so `message` and `source` may be absent (`undefined`). -/
structure Event where
  message : Option Message
  replyToken : String
  source : Option Source
deriving DecidableEq, Repr

/-- A resolved `fetch` response: its HTTP success flag, status, and body
bytes (`arrayBuffer`).  A `fetch` resolves with a response for every HTTP
outcome, failure statuses included. -/
structure FetchResponse where
  ok : Bool
  status : Nat
  body : List Nat
deriving DecidableEq, Repr

/-- Outcome of an awaited `fetch`: the promise either rejects — a network
failure, surfaced as a thrown `TypeError` that aborts the awaiting handler —
or resolves with a `FetchResponse` (whatever its status). -/
inductive FetchOutcome where
  | rejected (msg : String)
  | resolved (response : FetchResponse)
deriving DecidableEq, Repr

/-- Outcome of `client.speechToText.convert`: on an HTTP success the
ElevenLabs SDK resolves with the parsed result object (whose `text` field may
be absent and whose `language_code` is a string), and on a non-success
response it raises an API error carrying the service's error body. -/
inductive SttOutcome where
  | success (text : Option String) (language_code : String)
  | apiError (body : String)
deriving DecidableEq, Repr

/-- The external world one event's handling observes: the outcome of the
awaited loading-indicator fetch (a rejection throws out of the handler; a
resolved response, success or failure status, is ignored by the code), the
response the content fetch resolves to, and the outcome of the transcription
call. -/
structure EventWorld where
  loadingOutcome : FetchOutcome
  contentResponse : FetchResponse
  stt : SttOutcome
deriving DecidableEq, Repr

/-- An outbound network call issued by the worker, with the request data the
code puts into it. -/
inductive Call where
  | loadingStart (accessToken : String) (chatId : Option String)
  | getContent (accessToken : String) (messageId : String)
  | sttConvert (apiKey : String) (file : List Nat) (model_id : String)
      (tag_audio_events : Bool)
  | replyMessage (accessToken : String) (replyToken : String)
      (messages : List String)
deriving DecidableEq, Repr

/-- An exception escaping a handler (a rejected promise): a JavaScript
`TypeError` from an `undefined` property access, a `SyntaxError` from
`JSON.parse`, or the error the ElevenLabs SDK raises on a non-success
transcription response. -/
inductive Fault where
  | typeError (msg : String)
  | syntaxError (msg : String)
  | apiError (body : String)
deriving DecidableEq, Repr

deriving instance DecidableEq for Except

/-- The fixed instructional reply for non-audio/video events. -/
def instructionalText : String := "Please send an audio or video message."

/-- The fixed placeholder used when the transcription result has no text. -/
def placeholderText : String := "Could not transcribe the message."

/-- Embedding of `handleEvent` (src/index.ts:52-93).  If the event has no
`message`, or its `message.type` is not in `["audio", "video"]`, it sends one
instructional reply.  Otherwise it posts the loading indicator (the request
body reads `event.source.userId`, which throws a `TypeError` when `source` is
absent — the fault happens before the indicator request is issued; and if the
awaited indicator fetch itself rejects, the rejection throws out of the
handler right there, so no further call happens, while a resolved indicator
response of any status is ignored), fetches the media content, submits the
bytes to the transcription service with model `scribe_v1` and
`tag_audio_events: false`, and replies with the transcript prefixed by the
language code, falling back to `placeholderText` when `result.text` is absent
or empty (JavaScript `result.text || fallback`). -/
def handleEvent (env : Env) (event : Event) (w : EventWorld) :
    List Call × Except Fault Unit :=
  match event.message with
  | none =>
      ([Call.replyMessage env.LINE_CHANNEL_ACCESS_TOKEN event.replyToken
          [instructionalText]], Except.ok ())
  | some message =>
      if (["audio", "video"].contains message.type) = false then
        ([Call.replyMessage env.LINE_CHANNEL_ACCESS_TOKEN event.replyToken
            [instructionalText]], Except.ok ())
      else
        match event.source with
        | none =>
            ([], Except.error
              (Fault.typeError "Cannot read properties of undefined"))
        | some source =>
            let loading :=
              Call.loadingStart env.LINE_CHANNEL_ACCESS_TOKEN source.userId
            match w.loadingOutcome with
            | FetchOutcome.rejected msg =>
                ([loading], Except.error (Fault.typeError msg))
            | FetchOutcome.resolved _ =>
                let content :=
                  Call.getContent env.LINE_CHANNEL_ACCESS_TOKEN message.id
                let mediaBlob := w.contentResponse.body
                let stt :=
                  Call.sttConvert env.ELEVENLABS_API_KEY mediaBlob
                    "scribe_v1" false
                match w.stt with
                | SttOutcome.apiError err =>
                    ([loading, content, stt], Except.error (Fault.apiError err))
                | SttOutcome.success text languageCode =>
                    let transcription :=
                      match text with
                      | some t => if t = "" then placeholderText else t
                      | none => placeholderText
                    ([loading, content, stt,
                      Call.replyMessage env.LINE_CHANNEL_ACCESS_TOKEN
                        event.replyToken
                        ["[" ++ languageCode ++ "]: " ++ transcription]],
                     Except.ok ())

/-- What `JSON.parse` yields on the raw body: a thrown `SyntaxError`, or a
parsed object whose `events` field is absent or an event list.  `JSON.parse`
is a platform primitive, so its outcome on the body is supplied as an input
of the model. -/
inductive ParseOutcome where
  | malformed (msg : String)
  | parsed (events : Option (List Event))
deriving DecidableEq, Repr

/-- An inbound webhook request: the raw body text, the `x-line-signature`
header (absent or present), and the outcome `JSON.parse` has on the body. -/
structure Request where
  bodyText : String
  signatureHeader : Option String
  parse : ParseOutcome
deriving DecidableEq, Repr

/-- An HTTP response of the endpoint. -/
structure HttpResponse where
  status : Nat
  body : String
deriving DecidableEq, Repr

/-- The per-event handler runs of `events.map((event) => handleEvent(event, env))`:
event `i` is handled against external world `ws i`, each run independent of
its siblings. -/
def dispatchRuns (env : Env) (ws : Nat → EventWorld) (events : List Event) :
    List (List Call × Except Fault Unit) :=
  List.zipWith (fun e i => handleEvent env e (ws i)) events
    (List.range events.length)

/-- The first rejection among the settled handler results, if any:
the value `Promise.all` propagates. -/
def firstFault (runs : List (List Call × Except Fault Unit)) : Option Fault :=
  runs.findSome? (fun r =>
    match r.2 with
    | Except.error f => some f
    | Except.ok _ => none)

/-- Embedding of the `/webhook` endpoint (src/index.ts:6-28).  It reads the
signature header (`|| ""`), validates it against the raw body, and answers
401 on failure without touching the body further.  On success it parses the
body (a `SyntaxError` escapes), takes `body.events || []`, runs `handleEvent`
on every event (event `i` against world `ws i`); all started handlers run to
settlement, their outbound calls all occur, and `Promise.all` rejects with
the first handler fault if there is one, else the endpoint answers 200. -/
def webhookPost (env : Env) (req : Request) (ws : Nat → EventWorld) :
    List Call × Except Fault HttpResponse :=
  let signature := req.signatureHeader.getD ""
  let valid := validateSignature env.LINE_CHANNEL_SECRET req.bodyText signature
  if valid = false then
    ([], Except.ok ⟨401, "Invalid signature"⟩)
  else
    match req.parse with
    | ParseOutcome.malformed msg => ([], Except.error (Fault.syntaxError msg))
    | ParseOutcome.parsed eventsOpt =>
        let events := eventsOpt.getD []
        let runs := dispatchRuns env ws events
        let trace := (runs.map Prod.fst).flatten
        match firstFault runs with
        | some f => (trace, Except.error f)
        | none => (trace, Except.ok ⟨200, "OK"⟩)

/-- The response the platform sees: Hono's default error handler maps an
exception escaping the route handler to a 500 response. -/
def serve (r : List Call × Except Fault HttpResponse) : List Call × HttpResponse :=
  (r.1,
   match r.2 with
   | Except.ok resp => resp
   | Except.error _ => ⟨500, "Internal Server Error"⟩)

/-- Whether a call is a reply-endpoint call. -/
def isReply : Call → Bool
  | Call.replyMessage _ _ _ => true
  | _ => false

/-- Whether a call is a media-content fetch or a transcription call. -/
def isFetchOrStt : Call → Bool
  | Call.getContent _ _ => true
  | Call.sttConvert _ _ _ _ => true
  | _ => false

/-- RFC 4231 test case 1: HMAC-SHA256 of "Hi There" under a 20-byte 0x0b key. -/
theorem hmacSha256_rfc4231_case1 :
    hmacSha256 (List.replicate 20 0x0b)
      [0x48, 0x69, 0x20, 0x54, 0x68, 0x65, 0x72, 0x65] =
      [0xb0, 0x34, 0x4c, 0x61, 0xd8, 0xdb, 0x38, 0x53,
       0x5c, 0xa8, 0xaf, 0xce, 0xaf, 0x0b, 0xf1, 0x2b,
       0x88, 0x1d, 0xc2, 0x00, 0xc9, 0x83, 0x3d, 0xa7,
       0x26, 0xe9, 0x37, 0x6c, 0x2e, 0x32, 0xcf, 0xf7] := by decide

/-- Cross-checked vector: `validateSignature` accepts the base64 HMAC-SHA256
signature of body "b" under secret "s" and rejects a corrupted one. -/
theorem validateSignature_vector :
    validateSignature "s" "b" "J+avdKBhpfQNbQF2N2rjM3aOR3/fHR11aCiq8Rkv1mQ=" = true ∧
    validateSignature "s" "b" "K+avdKBhpfQNbQF2N2rjM3aOR3/fHR11aCiq8Rkv1mQ=" = false := by
  decide

/-- Six-bit values below 64 are recovered from their base64 character. -/
theorem sixbitVal_sixbitChar : ∀ n < 64, sixbitVal (sixbitChar n) = n := by decide

/-- No six-bit value encodes to the padding character. -/
theorem sixbitChar_ne_pad (n : Nat) : sixbitChar n ≠ '=' := by
  by_cases h : n < 64
  · have : ∀ k < 64, sixbitChar k ≠ '=' := by decide
    exact this n h
  · unfold sixbitChar
    rw [List.getD_eq_default]
    · decide
    · have : base64Alphabet.length = 64 := by decide
      omega

/-- Base64 decoding inverts base64 encoding on byte lists. -/
theorem base64DecodeList_base64EncodeList (l : List Nat) (h : ∀ b ∈ l, b < 256) :
    base64DecodeList (base64EncodeList l) = l := by
  induction l using base64EncodeList.induct with
  | case1 => rfl
  | case2 b0 =>
      have hb0 : b0 < 256 := h b0 (by simp)
      simp only [base64EncodeList, base64DecodeList]
      rw [if_pos trivial]
      rw [sixbitVal_sixbitChar _ (by omega), sixbitVal_sixbitChar _ (by omega)]
      simp only [List.cons.injEq, and_true]
      omega
  | case3 b0 b1 =>
      have hb0 : b0 < 256 := h b0 (by simp)
      have hb1 : b1 < 256 := h b1 (by simp)
      simp only [base64EncodeList, base64DecodeList]
      rw [if_neg (sixbitChar_ne_pad (b1 % 16 * 4)), if_pos trivial]
      rw [sixbitVal_sixbitChar _ (by omega), sixbitVal_sixbitChar _ (by omega),
        sixbitVal_sixbitChar _ (by omega)]
      simp only [List.cons.injEq, and_true]
      constructor <;> omega
  | case4 b0 b1 b2 rest ih =>
      have hb0 : b0 < 256 := h b0 (by simp)
      have hb1 : b1 < 256 := h b1 (by simp)
      have hb2 : b2 < 256 := h b2 (by simp)
      simp only [base64EncodeList, base64DecodeList]
      rw [if_neg (sixbitChar_ne_pad (b1 % 16 * 4 + b2 / 64)),
        if_neg (sixbitChar_ne_pad (b2 % 64))]
      rw [sixbitVal_sixbitChar _ (by omega), sixbitVal_sixbitChar _ (by omega),
        sixbitVal_sixbitChar _ (by omega), sixbitVal_sixbitChar _ (by omega)]
      rw [ih (fun b hb => h b (by simp [hb]))]
      simp only [List.cons.injEq, and_true]
      refine ⟨by omega, by omega, by omega⟩

/-- Base64 encoding is injective on byte lists. -/
theorem base64Encode_injective (l l₂ : List Nat)
    (h : ∀ b ∈ l, b < 256) (h₂ : ∀ b ∈ l₂, b < 256)
    (he : base64Encode l = base64Encode l₂) : l = l₂ := by
  have hdata : base64EncodeList l = base64EncodeList l₂ := by
    have := congrArg String.data he
    simpa [base64Encode] using this
  calc l = base64DecodeList (base64EncodeList l) :=
        (base64DecodeList_base64EncodeList l h).symm
    _ = base64DecodeList (base64EncodeList l₂) := by rw [hdata]
    _ = l₂ := base64DecodeList_base64EncodeList l₂ h₂

/-- The four bytes of a word are bytes. -/
theorem wordBytes_lt (w : Nat) : ∀ b ∈ wordBytes w, b < 256 := by
  intro b hb
  simp only [wordBytes, List.mem_cons, List.not_mem_nil, or_false] at hb
  rcases hb with rfl | rfl | rfl | rfl <;> omega

/-- The 32 digest bytes are bytes. -/
theorem digestBytes_lt (st : Sha256State) : ∀ b ∈ digestBytes st, b < 256 := by
  intro b hb
  simp only [digestBytes, List.mem_append] at hb
  rcases hb with ((((((hb | hb) | hb) | hb) | hb) | hb) | hb) | hb <;>
    exact wordBytes_lt _ b hb

/-- SHA-256 digests consist of bytes. -/
theorem sha256_lt (msg : List Nat) : ∀ b ∈ sha256 msg, b < 256 :=
  digestBytes_lt _

/-- HMAC-SHA256 digests consist of bytes. -/
theorem hmacSha256_lt (key msg : List Nat) : ∀ b ∈ hmacSha256 key msg, b < 256 :=
  sha256_lt _

/-- An HMAC-SHA256 digest has 32 bytes. -/
theorem hmacSha256_length (key msg : List Nat) : (hmacSha256 key msg).length = 32 :=
  rfl

/-- The base64 encoding of a nonempty byte list is nonempty. -/
theorem base64Encode_ne_empty (l : List Nat) (h : l ≠ []) : base64Encode l ≠ "" := by
  rcases l with _ | ⟨b0, _ | ⟨b1, _ | ⟨b2, rest⟩⟩⟩
  · exact absurd rfl h
  all_goals
    intro he
    have hd := congrArg String.data he
    simp [base64Encode, base64EncodeList] at hd

/-- The base64 encoding of an HMAC-SHA256 digest is never the empty string. -/
theorem base64Encode_hmac_ne_empty (key msg : List Nat) :
    base64Encode (hmacSha256 key msg) ≠ "" := by
  refine base64Encode_ne_empty _ (fun hnil => ?_)
  have h32 := hmacSha256_length key msg
  rw [hnil] at h32
  simp at h32

/-- The verifier accepts exactly the base64 HMAC-SHA256 signature of the body
under the secret. -/
theorem validateSignature_eq_true_iff (secret body sig : String) :
    validateSignature secret body sig = true ↔
      sig = base64Encode (hmacSha256 (utf8Bytes secret) (utf8Bytes body)) := by
  constructor
  · intro h
    exact (eq_of_beq h).symm
  · intro h
    simp [validateSignature, h]

/-- There is no handler fault exactly when every handler run succeeded. -/
theorem firstFault_eq_none_iff (runs : List (List Call × Except Fault Unit)) :
    firstFault runs = none ↔ ∀ r ∈ runs, r.2 = Except.ok () := by
  rw [firstFault, List.findSome?_eq_none_iff]
  constructor
  · intro H r hr
    have h2 := H r hr
    cases hrr : r.2 with
    | error f => rw [hrr] at h2; exact absurd h2 (by simp)
    | ok u => cases u; rfl
  · intro H r hr
    rw [H r hr]

/-- C1: `validateSignature secret body sig` returns true iff `sig` is the
base64 encoding of the HMAC-SHA256 digest of `body` keyed by `secret`;
consequently any change of `body` or `secret` (in particular a one-byte
mutation) that changes the digest flips a true result to false.  The digest
inequality is exactly where the claim's "changing any byte flips the result"
rests: it is the collision-freedom of HMAC-SHA256 under the mutation, which a
mathematical proof can neither establish nor refute for the full function. -/
theorem claim1_validate_signature_exact_match (secret body sig : String) :
    (validateSignature secret body sig = true ↔
      sig = base64Encode (hmacSha256 (utf8Bytes secret) (utf8Bytes body))) ∧
    ∀ secret2 body2 : String,
      hmacSha256 (utf8Bytes secret2) (utf8Bytes body2) ≠
        hmacSha256 (utf8Bytes secret) (utf8Bytes body) →
      validateSignature secret body sig = true →
      validateSignature secret2 body2 sig = false := by
  refine ⟨validateSignature_eq_true_iff secret body sig, ?_⟩
  intro secret2 body2 hne htrue
  have hsig := (validateSignature_eq_true_iff secret body sig).mp htrue
  have hne2 : base64Encode (hmacSha256 (utf8Bytes secret2) (utf8Bytes body2)) ≠ sig := by
    rw [hsig]
    intro he
    exact hne (base64Encode_injective _ _ (hmacSha256_lt _ _) (hmacSha256_lt _ _) he)
  cases hv : validateSignature secret2 body2 sig with
  | false => rfl
  | true => exact absurd ((validateSignature_eq_true_iff _ _ _).mp hv).symm hne2

/-- Witness for C1 at secret "s", body "b" and their externally computed
signature: the exact signature is accepted, and after mutating the secret's
one byte to "x" — which changes the digest — the same signature is refused. -/
theorem claim1_witness :
    validateSignature "s" "b" "J+avdKBhpfQNbQF2N2rjM3aOR3/fHR11aCiq8Rkv1mQ=" = true ∧
    validateSignature "x" "b" "J+avdKBhpfQNbQF2N2rjM3aOR3/fHR11aCiq8Rkv1mQ=" = false :=
  ⟨(claim1_validate_signature_exact_match "s" "b" _).1.mpr (by decide),
   (claim1_validate_signature_exact_match "s" "b" _).2 "x" "b" (by decide)
     ((claim1_validate_signature_exact_match "s" "b" _).1.mpr (by decide))⟩

/-- C2: a request whose `x-line-signature` header is missing, empty, or
different from the signature of the raw body answers 401 with the fixed body
"Invalid signature", with an empty outbound-call trace; the result is this
constant for every JSON-parse outcome and every external world, so the body
is never parsed and no event handler and no outbound call runs. -/
theorem claim2_invalid_signature_rejected (env : Env) (bodyText : String)
    (sigHeader : Option String) (parse : ParseOutcome) (ws : Nat → EventWorld)
    (h : sigHeader = none ∨ sigHeader = some "" ∨
      sigHeader.getD "" ≠
        base64Encode (hmacSha256 (utf8Bytes env.LINE_CHANNEL_SECRET)
          (utf8Bytes bodyText))) :
    webhookPost env ⟨bodyText, sigHeader, parse⟩ ws =
      ([], Except.ok ⟨401, "Invalid signature"⟩) := by
  have hne : sigHeader.getD "" ≠
      base64Encode (hmacSha256 (utf8Bytes env.LINE_CHANNEL_SECRET)
        (utf8Bytes bodyText)) := by
    rcases h with rfl | rfl | h
    · intro he
      rw [Option.getD_none] at he
      exact base64Encode_hmac_ne_empty _ _ he.symm
    · intro he
      rw [Option.getD_some] at he
      exact base64Encode_hmac_ne_empty _ _ he.symm
    · exact h
  have hv : validateSignature env.LINE_CHANNEL_SECRET bodyText
      (sigHeader.getD "") = false := by
    cases hval : validateSignature env.LINE_CHANNEL_SECRET bodyText
        (sigHeader.getD "") with
    | false => rfl
    | true => exact absurd ((validateSignature_eq_true_iff _ _ _).mp hval) hne
  simp [webhookPost, hv]

/-- Witness for C2: a request with no signature header is answered 401 with
no calls, for a concrete environment, body and world. -/
theorem claim2_witness :
    webhookPost ⟨"secret", "token", "key"⟩
      ⟨"\x7b\x7d", none, ParseOutcome.parsed none⟩
      (fun _ => ⟨FetchOutcome.resolved ⟨true, 200, []⟩, ⟨true, 200, []⟩, SttOutcome.success none "en"⟩) =
      ([], Except.ok ⟨401, "Invalid signature"⟩) :=
  claim2_invalid_signature_rejected _ _ _ _ _ (Or.inl rfl)

/-- C3 counterexample: a correctly signed request whose single audio event
lacks a `source` makes `handleEvent` throw, the rejection escapes
`Promise.all`, and the endpoint's caller sees 500 "Internal Server Error" —
an outcome beyond the two (401, 200) the claim allows. -/
theorem claim3_counterexample :
    (serve (webhookPost ⟨"s", "tok", "key"⟩
      ⟨"body",
       some (base64Encode (hmacSha256 (utf8Bytes "s") (utf8Bytes "body"))),
       ParseOutcome.parsed (some [⟨some ⟨"audio", "m1"⟩, "rt1", none⟩])⟩
      (fun _ => ⟨FetchOutcome.resolved ⟨true, 200, []⟩, ⟨true, 200, []⟩,
        SttOutcome.success (some "hi") "en"⟩))).2 =
        ⟨500, "Internal Server Error"⟩ ∧
    (serve (webhookPost ⟨"s", "tok", "key"⟩
      ⟨"body",
       some (base64Encode (hmacSha256 (utf8Bytes "s") (utf8Bytes "body"))),
       ParseOutcome.parsed (some [⟨some ⟨"audio", "m1"⟩, "rt1", none⟩])⟩
      (fun _ => ⟨FetchOutcome.resolved ⟨true, 200, []⟩, ⟨true, 200, []⟩,
        SttOutcome.success (some "hi") "en"⟩))).2.status ≠ 200 ∧
    (serve (webhookPost ⟨"s", "tok", "key"⟩
      ⟨"body",
       some (base64Encode (hmacSha256 (utf8Bytes "s") (utf8Bytes "body"))),
       ParseOutcome.parsed (some [⟨some ⟨"audio", "m1"⟩, "rt1", none⟩])⟩
      (fun _ => ⟨FetchOutcome.resolved ⟨true, 200, []⟩, ⟨true, 200, []⟩,
        SttOutcome.success (some "hi") "en"⟩))).2.status ≠ 401 := by
  refine ⟨by decide, by decide, by decide⟩

/-- C3 amended: on a verified request with a parsed event list, the trace is
the concatenation of each event's own handler run — a fault in one handler
never affects a sibling's run or its calls — and the endpoint acknowledges
with exactly 200 "OK" when no handler faulted; but when some handler faults,
the fault escapes the fan-in and the caller sees 500, a third outcome beside
the claimed 401 and 200. -/
theorem claim3_amended_fault_isolation (env : Env) (bodyText : String)
    (sigHeader : Option String) (events : List Event) (ws : Nat → EventWorld)
    (hval : validateSignature env.LINE_CHANNEL_SECRET bodyText
      (sigHeader.getD "") = true) :
    (serve (webhookPost env ⟨bodyText, sigHeader,
        ParseOutcome.parsed (some events)⟩ ws)).1 =
      ((dispatchRuns env ws events).map Prod.fst).flatten ∧
    (firstFault (dispatchRuns env ws events) = none →
      (serve (webhookPost env ⟨bodyText, sigHeader,
          ParseOutcome.parsed (some events)⟩ ws)).2 = ⟨200, "OK"⟩) ∧
    (firstFault (dispatchRuns env ws events) ≠ none →
      (serve (webhookPost env ⟨bodyText, sigHeader,
          ParseOutcome.parsed (some events)⟩ ws)).2 =
        ⟨500, "Internal Server Error"⟩) := by
  cases hf : firstFault (dispatchRuns env ws events) with
  | none =>
      refine ⟨?_, fun _ => ?_, fun hc => absurd rfl hc⟩ <;>
        simp [webhookPost, serve, hval, hf]
  | some f =>
      refine ⟨?_, fun hc => absurd hc (by simp [hf]), fun _ => ?_⟩ <;>
        simp [webhookPost, serve, hval, hf]

/-- Witness for C3's amended theorem: a batch of a faulting audio event (no
`source`) and a healthy text event; the sibling's run still appears in the
trace and the caller sees 500. -/
theorem claim3_amended_witness :
    (serve (webhookPost ⟨"s", "tok", "key"⟩
      ⟨"b2", some (base64Encode (hmacSha256 (utf8Bytes "s") (utf8Bytes "b2"))),
       ParseOutcome.parsed (some
         [⟨some ⟨"audio", "m1"⟩, "rt1", none⟩,
          ⟨some ⟨"text", "m2"⟩, "rt2", some ⟨some "u2"⟩⟩])⟩
      (fun _ => ⟨FetchOutcome.resolved ⟨true, 200, []⟩, ⟨true, 200, []⟩,
        SttOutcome.success (some "hi") "en"⟩))).1 =
      ((dispatchRuns ⟨"s", "tok", "key"⟩
        (fun _ => ⟨FetchOutcome.resolved ⟨true, 200, []⟩, ⟨true, 200, []⟩,
          SttOutcome.success (some "hi") "en"⟩)
        [⟨some ⟨"audio", "m1"⟩, "rt1", none⟩,
         ⟨some ⟨"text", "m2"⟩, "rt2", some ⟨some "u2"⟩⟩]).map Prod.fst).flatten ∧
    (serve (webhookPost ⟨"s", "tok", "key"⟩
      ⟨"b2", some (base64Encode (hmacSha256 (utf8Bytes "s") (utf8Bytes "b2"))),
       ParseOutcome.parsed (some
         [⟨some ⟨"audio", "m1"⟩, "rt1", none⟩,
          ⟨some ⟨"text", "m2"⟩, "rt2", some ⟨some "u2"⟩⟩])⟩
      (fun _ => ⟨FetchOutcome.resolved ⟨true, 200, []⟩, ⟨true, 200, []⟩,
        SttOutcome.success (some "hi") "en"⟩))).2 =
      ⟨500, "Internal Server Error"⟩ :=
  ⟨(claim3_amended_fault_isolation _ _ _ _ _ (by simp [validateSignature])).1,
   (claim3_amended_fault_isolation _ _ _ _ _ (by simp [validateSignature])).2.2
     (by decide)⟩

/-- C4: on a verified request the dispatcher takes `events` from the parsed
body with an absent field meaning the empty list and no error, starts one
handler run per event (`dispatchRuns` has one entry per event), completes
every run (the trace is the concatenation of all runs' calls), and answers
200 "OK" exactly when every one of the started runs has settled without
fault — never on a proper subset of them. -/
theorem claim4_dispatch_semantics (env : Env) (bodyText : String)
    (sigHeader : Option String) (eventsOpt : Option (List Event))
    (ws : Nat → EventWorld)
    (hval : validateSignature env.LINE_CHANNEL_SECRET bodyText
      (sigHeader.getD "") = true) :
    (dispatchRuns env ws (eventsOpt.getD [])).length = (eventsOpt.getD []).length ∧
    (webhookPost env ⟨bodyText, sigHeader, ParseOutcome.parsed eventsOpt⟩ ws).1 =
      ((dispatchRuns env ws (eventsOpt.getD [])).map Prod.fst).flatten ∧
    webhookPost env ⟨bodyText, sigHeader, ParseOutcome.parsed none⟩ ws =
      ([], Except.ok ⟨200, "OK"⟩) ∧
    ((webhookPost env ⟨bodyText, sigHeader, ParseOutcome.parsed eventsOpt⟩ ws).2 =
        Except.ok ⟨200, "OK"⟩ ↔
      ∀ r ∈ dispatchRuns env ws (eventsOpt.getD []), r.2 = Except.ok ()) := by
  refine ⟨?_, ?_, ?_, ?_⟩
  · simp [dispatchRuns]
  · cases hf : firstFault (dispatchRuns env ws (eventsOpt.getD [])) <;>
      simp [webhookPost, hval, hf]
  · simp [webhookPost, hval, dispatchRuns, firstFault]
  · cases hf : firstFault (dispatchRuns env ws (eventsOpt.getD [])) with
    | none =>
        simpa [webhookPost, hval, hf] using (firstFault_eq_none_iff _).mp hf
    | some f =>
        have hne : ¬ ∀ r ∈ dispatchRuns env ws (eventsOpt.getD []),
            r.2 = Except.ok () := by
          intro H
          have h0 := (firstFault_eq_none_iff _).mpr H
          rw [hf] at h0
          exact Option.noConfusion h0
        have herr : (webhookPost env ⟨bodyText, sigHeader,
            ParseOutcome.parsed eventsOpt⟩ ws).2 = Except.error f := by
          simp [webhookPost, hval, hf]
        constructor
        · intro h200
          rw [herr] at h200
          exact absurd h200 (by simp)
        · intro H
          exact absurd H hne

/-- Witness for C4: a verified request with one text event answers 200 after
its single run settles, and one with the `events` field absent answers 200
with no calls. -/
theorem claim4_witness :
    (dispatchRuns ⟨"s", "tok", "key"⟩
      (fun _ => ⟨FetchOutcome.resolved ⟨true, 200, []⟩, ⟨true, 200, []⟩, SttOutcome.success none "en"⟩)
      ((some [⟨some ⟨"text", "m"⟩, "rt", none⟩]).getD [])).length = 1 ∧
    (webhookPost ⟨"s", "tok", "key"⟩
      ⟨"b4", some (base64Encode (hmacSha256 (utf8Bytes "s") (utf8Bytes "b4"))),
       ParseOutcome.parsed (some [⟨some ⟨"text", "m"⟩, "rt", none⟩])⟩
      (fun _ => ⟨FetchOutcome.resolved ⟨true, 200, []⟩, ⟨true, 200, []⟩,
        SttOutcome.success none "en"⟩)).2 = Except.ok ⟨200, "OK"⟩ ∧
    webhookPost ⟨"s", "tok", "key"⟩
      ⟨"b4", some (base64Encode (hmacSha256 (utf8Bytes "s") (utf8Bytes "b4"))),
       ParseOutcome.parsed none⟩
      (fun _ => ⟨FetchOutcome.resolved ⟨true, 200, []⟩, ⟨true, 200, []⟩, SttOutcome.success none "en"⟩) =
      ([], Except.ok ⟨200, "OK"⟩) :=
  ⟨(claim4_dispatch_semantics ⟨"s", "tok", "key"⟩ "b4"
     (some (base64Encode (hmacSha256 (utf8Bytes "s") (utf8Bytes "b4"))))
     (some [⟨some ⟨"text", "m"⟩, "rt", none⟩])
     (fun _ => ⟨FetchOutcome.resolved ⟨true, 200, []⟩, ⟨true, 200, []⟩, SttOutcome.success none "en"⟩)
     (by simp [validateSignature])).1,
   (claim4_dispatch_semantics ⟨"s", "tok", "key"⟩ "b4"
     (some (base64Encode (hmacSha256 (utf8Bytes "s") (utf8Bytes "b4"))))
     (some [⟨some ⟨"text", "m"⟩, "rt", none⟩])
     (fun _ => ⟨FetchOutcome.resolved ⟨true, 200, []⟩, ⟨true, 200, []⟩, SttOutcome.success none "en"⟩)
     (by simp [validateSignature])).2.2.2.mpr (by decide),
   (claim4_dispatch_semantics ⟨"s", "tok", "key"⟩ "b4"
     (some (base64Encode (hmacSha256 (utf8Bytes "s") (utf8Bytes "b4"))))
     (some [⟨some ⟨"text", "m"⟩, "rt", none⟩])
     (fun _ => ⟨FetchOutcome.resolved ⟨true, 200, []⟩, ⟨true, 200, []⟩, SttOutcome.success none "en"⟩)
     (by simp [validateSignature])).2.2.1⟩

/-- C5: an event with no `message`, or whose `message.type` is neither
"audio" nor "video", gets exactly one reply carrying the fixed instructional
string, and its trace holds no content fetch and no transcription call. -/
theorem claim5_non_media_single_reply (env : Env) (event : Event) (w : EventWorld)
    (h : ∀ m, event.message = some m → m.type ≠ "audio" ∧ m.type ≠ "video") :
    handleEvent env event w =
      ([Call.replyMessage env.LINE_CHANNEL_ACCESS_TOKEN event.replyToken
          [instructionalText]], Except.ok ()) ∧
    ((handleEvent env event w).1.filter isReply).length = 1 ∧
    (handleEvent env event w).1.filter isFetchOrStt = [] := by
  cases hm : event.message with
  | none =>
      refine ⟨?_, ?_, ?_⟩ <;> simp [handleEvent, hm, isReply, isFetchOrStt]
  | some m =>
      obtain ⟨h1, h2⟩ := h m hm
      refine ⟨?_, ?_, ?_⟩ <;> simp [handleEvent, hm, h1, h2, isReply, isFetchOrStt]

/-- Witness for C5: a text message event yields the single instructional
reply and no fetch or transcription call. -/
theorem claim5_witness :
    handleEvent ⟨"s", "tok", "key"⟩ ⟨some ⟨"text", "id1"⟩, "rt5", none⟩
      ⟨FetchOutcome.resolved ⟨true, 200, []⟩, ⟨true, 200, []⟩, SttOutcome.success none "en"⟩ =
      ([Call.replyMessage "tok" "rt5" [instructionalText]], Except.ok ()) ∧
    ((handleEvent ⟨"s", "tok", "key"⟩ ⟨some ⟨"text", "id1"⟩, "rt5", none⟩
      ⟨FetchOutcome.resolved ⟨true, 200, []⟩, ⟨true, 200, []⟩,
        SttOutcome.success none "en"⟩).1.filter isReply).length = 1 ∧
    (handleEvent ⟨"s", "tok", "key"⟩ ⟨some ⟨"text", "id1"⟩, "rt5", none⟩
      ⟨FetchOutcome.resolved ⟨true, 200, []⟩, ⟨true, 200, []⟩,
        SttOutcome.success none "en"⟩).1.filter isFetchOrStt = [] :=
  claim5_non_media_single_reply ⟨"s", "tok", "key"⟩
    ⟨some ⟨"text", "id1"⟩, "rt5", none⟩
    ⟨FetchOutcome.resolved ⟨true, 200, []⟩, ⟨true, 200, []⟩, SttOutcome.success none "en"⟩
    (fun m hm => by cases hm; exact ⟨by decide, by decide⟩)

/-- C6: an audio/video event (with a `source` and a resolved loading fetch —
both entailed in the code by the transcription call being reached at all)
whose transcription succeeds gets exactly one reply whose text is the
language code in brackets followed by the result's text, with the fixed
placeholder replacing an absent or empty text. -/
theorem claim6_success_reply (env : Env) (event : Event) (m : Message)
    (src : Source) (resp : FetchResponse) (w : EventWorld)
    (text : Option String) (languageCode : String)
    (hm : event.message = some m)
    (ht : m.type = "audio" ∨ m.type = "video")
    (hsrc : event.source = some src)
    (hload : w.loadingOutcome = FetchOutcome.resolved resp)
    (hstt : w.stt = SttOutcome.success text languageCode) :
    handleEvent env event w =
      ([Call.loadingStart env.LINE_CHANNEL_ACCESS_TOKEN src.userId,
        Call.getContent env.LINE_CHANNEL_ACCESS_TOKEN m.id,
        Call.sttConvert env.ELEVENLABS_API_KEY w.contentResponse.body
          "scribe_v1" false,
        Call.replyMessage env.LINE_CHANNEL_ACCESS_TOKEN event.replyToken
          ["[" ++ languageCode ++ "]: " ++
            (if text.getD "" = "" then placeholderText else text.getD "")]],
       Except.ok ()) ∧
    ((handleEvent env event w).1.filter isReply).length = 1 := by
  have heq : handleEvent env event w =
      ([Call.loadingStart env.LINE_CHANNEL_ACCESS_TOKEN src.userId,
        Call.getContent env.LINE_CHANNEL_ACCESS_TOKEN m.id,
        Call.sttConvert env.ELEVENLABS_API_KEY w.contentResponse.body
          "scribe_v1" false,
        Call.replyMessage env.LINE_CHANNEL_ACCESS_TOKEN event.replyToken
          ["[" ++ languageCode ++ "]: " ++
            (if text.getD "" = "" then placeholderText else text.getD "")]],
       Except.ok ()) := by
    rcases ht with h | h
    all_goals
      cases text with
      | none => simp [handleEvent, hm, h, hsrc, hload, hstt]
      | some t =>
          by_cases htx : t = ""
          · simp [handleEvent, hm, h, hsrc, hload, hstt, htx]
          · simp [handleEvent, hm, h, hsrc, hload, hstt, htx]
  refine ⟨heq, ?_⟩
  rw [heq]
  simp [isReply]

/-- Witness for C6: an audio event with transcription result text "hello" in
language "en" yields exactly the reply "[en]: hello". -/
theorem claim6_witness :
    handleEvent ⟨"s", "tok", "key"⟩
      ⟨some ⟨"audio", "mid6"⟩, "rt6", some ⟨some "u6"⟩⟩
      ⟨FetchOutcome.resolved ⟨true, 200, []⟩, ⟨true, 200, [7, 8]⟩,
        SttOutcome.success (some "hello") "en"⟩ =
      ([Call.loadingStart "tok" (some "u6"), Call.getContent "tok" "mid6",
        Call.sttConvert "key" [7, 8] "scribe_v1" false,
        Call.replyMessage "tok" "rt6" ["[en]: hello"]], Except.ok ()) :=
  (claim6_success_reply ⟨"s", "tok", "key"⟩
    ⟨some ⟨"audio", "mid6"⟩, "rt6", some ⟨some "u6"⟩⟩ ⟨"audio", "mid6"⟩
    ⟨some "u6"⟩ ⟨true, 200, []⟩
    ⟨FetchOutcome.resolved ⟨true, 200, []⟩, ⟨true, 200, [7, 8]⟩,
      SttOutcome.success (some "hello") "en"⟩
    (some "hello") "en" rfl (Or.inl rfl) rfl rfl rfl).1

/-- C7: contrary to the claim, a non-success transcription response does not
produce an error-descriptive reply: the SDK's error escapes `handleEvent`
(which has no catch), so the event's handling rejects after the convert call
with no reply at all — the trace of the failing input holds no reply call,
and the error body "rate limited" reaches no message. -/
theorem claim7_stt_error_no_reply :
    handleEvent ⟨"s", "tok", "key"⟩
      ⟨some ⟨"audio", "m1"⟩, "rt1", some ⟨some "u1"⟩⟩
      ⟨FetchOutcome.resolved ⟨true, 200, []⟩, ⟨true, 200, [1, 2]⟩, SttOutcome.apiError "rate limited"⟩ =
      ([Call.loadingStart "tok" (some "u1"), Call.getContent "tok" "m1",
        Call.sttConvert "key" [1, 2] "scribe_v1" false],
       Except.error (Fault.apiError "rate limited")) ∧
    (handleEvent ⟨"s", "tok", "key"⟩
      ⟨some ⟨"audio", "m1"⟩, "rt1", some ⟨some "u1"⟩⟩
      ⟨FetchOutcome.resolved ⟨true, 200, []⟩, ⟨true, 200, [1, 2]⟩,
        SttOutcome.apiError "rate limited"⟩).1.filter isReply = [] := by
  exact ⟨by decide, by decide⟩

/-- C8 counterexample: when the awaited loading-indicator fetch rejects (a
network failure), the rejection throws out of the handler at the await: for
this concrete audio event the trace stops at the indicator request — no media
fetch, no transcription and no reply proceed, and the handling differs from
the same event with a resolved indicator response — refuting the claim that
every failure of the loading call leaves the pipeline as on success. -/
theorem claim8_counterexample :
    handleEvent ⟨"s", "tok", "key"⟩
      ⟨some ⟨"audio", "m8"⟩, "rt8", some ⟨some "u8"⟩⟩
      ⟨FetchOutcome.rejected "Failed to fetch", ⟨true, 200, [9]⟩,
        SttOutcome.success (some "hi") "en"⟩ =
      ([Call.loadingStart "tok" (some "u8")],
       Except.error (Fault.typeError "Failed to fetch")) ∧
    (handleEvent ⟨"s", "tok", "key"⟩
      ⟨some ⟨"audio", "m8"⟩, "rt8", some ⟨some "u8"⟩⟩
      ⟨FetchOutcome.rejected "Failed to fetch", ⟨true, 200, [9]⟩,
        SttOutcome.success (some "hi") "en"⟩).1.filter isFetchOrStt = [] ∧
    (handleEvent ⟨"s", "tok", "key"⟩
      ⟨some ⟨"audio", "m8"⟩, "rt8", some ⟨some "u8"⟩⟩
      ⟨FetchOutcome.rejected "Failed to fetch", ⟨true, 200, [9]⟩,
        SttOutcome.success (some "hi") "en"⟩).1.filter isReply = [] ∧
    handleEvent ⟨"s", "tok", "key"⟩
      ⟨some ⟨"audio", "m8"⟩, "rt8", some ⟨some "u8"⟩⟩
      ⟨FetchOutcome.rejected "Failed to fetch", ⟨true, 200, [9]⟩,
        SttOutcome.success (some "hi") "en"⟩ ≠
      handleEvent ⟨"s", "tok", "key"⟩
        ⟨some ⟨"audio", "m8"⟩, "rt8", some ⟨some "u8"⟩⟩
        ⟨FetchOutcome.resolved ⟨true, 200, []⟩, ⟨true, 200, [9]⟩,
          SttOutcome.success (some "hi") "en"⟩ := by
  exact ⟨by decide, by decide, by decide, by decide⟩

/-- C8 amended: the code never reads the loading-indicator response, so any
two resolved outcomes of that call — an HTTP failure response included —
leave the event's calls and result identical; but a network-level rejection
of the awaited indicator fetch throws out of the handler, aborting the
audio/video event after the indicator request with no media fetch, no
transcription and no reply. -/
theorem claim8_amended_loading_best_effort (env : Env) (event : Event)
    (w : EventWorld) (r1 r2 : FetchResponse) :
    (handleEvent env event
        ⟨FetchOutcome.resolved r1, w.contentResponse, w.stt⟩ =
      handleEvent env event
        ⟨FetchOutcome.resolved r2, w.contentResponse, w.stt⟩) ∧
    ∀ m src msg, event.message = some m →
      (m.type = "audio" ∨ m.type = "video") →
      event.source = some src →
      w.loadingOutcome = FetchOutcome.rejected msg →
      handleEvent env event w =
        ([Call.loadingStart env.LINE_CHANNEL_ACCESS_TOKEN src.userId],
         Except.error (Fault.typeError msg)) := by
  refine ⟨rfl, ?_⟩
  intro m src msg hm ht hsrc hrej
  rcases ht with h | h <;> simp [handleEvent, hm, h, hsrc, hrej]

/-- Witness for C8's amended theorem: an HTTP 500 and an HTTP 200 indicator
response give identical handling of a concrete audio event, while a rejected
indicator fetch aborts it right after the indicator request. -/
theorem claim8_amended_witness :
    (handleEvent ⟨"s", "tok", "key"⟩
        ⟨some ⟨"audio", "m8"⟩, "rt8", some ⟨some "u8"⟩⟩
        ⟨FetchOutcome.resolved ⟨false, 500, []⟩, ⟨true, 200, [9]⟩,
          SttOutcome.success (some "hi") "en"⟩ =
      handleEvent ⟨"s", "tok", "key"⟩
        ⟨some ⟨"audio", "m8"⟩, "rt8", some ⟨some "u8"⟩⟩
        ⟨FetchOutcome.resolved ⟨true, 200, []⟩, ⟨true, 200, [9]⟩,
          SttOutcome.success (some "hi") "en"⟩) ∧
    handleEvent ⟨"s", "tok", "key"⟩
      ⟨some ⟨"audio", "m8"⟩, "rt8", some ⟨some "u8"⟩⟩
      ⟨FetchOutcome.rejected "Failed to fetch", ⟨true, 200, [9]⟩,
        SttOutcome.success (some "hi") "en"⟩ =
      ([Call.loadingStart "tok" (some "u8")],
       Except.error (Fault.typeError "Failed to fetch")) :=
  ⟨(claim8_amended_loading_best_effort ⟨"s", "tok", "key"⟩
      ⟨some ⟨"audio", "m8"⟩, "rt8", some ⟨some "u8"⟩⟩
      ⟨FetchOutcome.rejected "Failed to fetch", ⟨true, 200, [9]⟩,
        SttOutcome.success (some "hi") "en"⟩
      ⟨false, 500, []⟩ ⟨true, 200, []⟩).1,
   (claim8_amended_loading_best_effort ⟨"s", "tok", "key"⟩
      ⟨some ⟨"audio", "m8"⟩, "rt8", some ⟨some "u8"⟩⟩
      ⟨FetchOutcome.rejected "Failed to fetch", ⟨true, 200, [9]⟩,
        SttOutcome.success (some "hi") "en"⟩
      ⟨true, 200, []⟩ ⟨true, 200, []⟩).2
     ⟨"audio", "m8"⟩ ⟨some "u8"⟩ "Failed to fetch" rfl (Or.inl rfl) rfl rfl⟩

/-- C9: on every execution path `handleEvent` issues at most one reply call,
and every reply call it issues carries the event's own `replyToken`. -/
theorem claim9_reply_token_used_at_most_once (env : Env) (event : Event)
    (w : EventWorld) :
    ((handleEvent env event w).1.filter isReply).length ≤ 1 ∧
    ∀ a tok msgs, Call.replyMessage a tok msgs ∈ (handleEvent env event w).1 →
      tok = event.replyToken := by
  rcases event with ⟨msg, rt, src⟩
  rcases msg with _ | m
  · constructor
    · simp [handleEvent, isReply]
    · intro a tok msgs hmem
      simp [handleEvent] at hmem
      exact hmem.2.1
  · by_cases hcp : ¬m.type = "audio" ∧ ¬m.type = "video"
    · constructor
      · simp [handleEvent, hcp, isReply]
      · intro a tok msgs hmem
        simp [handleEvent, hcp] at hmem
        exact hmem.2.1
    · rcases src with _ | s
      · constructor
        · simp [handleEvent, hcp, isReply]
        · intro a tok msgs hmem
          simp [handleEvent, hcp] at hmem
      · cases hlo : w.loadingOutcome with
        | rejected msg =>
            constructor
            · simp [handleEvent, hcp, hlo, isReply]
            · intro a tok msgs hmem
              simp [handleEvent, hcp, hlo] at hmem
        | resolved resp =>
            cases hst : w.stt with
            | success t lc =>
                constructor
                · simp [handleEvent, hcp, hlo, hst, isReply]
                · intro a tok msgs hmem
                  simp [handleEvent, hcp, hlo, hst] at hmem
                  exact hmem.2.1
            | apiError e =>
                constructor
                · simp [handleEvent, hcp, hlo, hst, isReply]
                · intro a tok msgs hmem
                  simp [handleEvent, hcp, hlo, hst] at hmem

/-- Witness for C9: at a concrete event the reply count is at most one and
the issued reply's token is the event's token. -/
theorem claim9_witness :
    ((handleEvent ⟨"s", "tok", "key"⟩ ⟨none, "rt9", none⟩
        ⟨FetchOutcome.resolved ⟨true, 200, []⟩, ⟨true, 200, []⟩,
          SttOutcome.success none "en"⟩).1.filter isReply).length ≤ 1 ∧
    ("rt9" : String) = "rt9" :=
  ⟨(claim9_reply_token_used_at_most_once ⟨"s", "tok", "key"⟩ ⟨none, "rt9", none⟩
      ⟨FetchOutcome.resolved ⟨true, 200, []⟩, ⟨true, 200, []⟩, SttOutcome.success none "en"⟩).1,
   (claim9_reply_token_used_at_most_once ⟨"s", "tok", "key"⟩ ⟨none, "rt9", none⟩
      ⟨FetchOutcome.resolved ⟨true, 200, []⟩, ⟨true, 200, []⟩, SttOutcome.success none "en"⟩).2
     "tok" "rt9" [instructionalText] (by decide)⟩

/-- C10: an audio/video event whose `source` is absent makes `handleEvent`
fault on the unguarded `event.source.userId` access before any outbound call:
the handling rejects with a TypeError, the trace is empty, and no reply is
attempted; the audio/video branch is total only when `source` is present. -/
theorem claim10_missing_source_faults (env : Env) (event : Event) (m : Message)
    (w : EventWorld)
    (hm : event.message = some m)
    (ht : m.type = "audio" ∨ m.type = "video")
    (hsrc : event.source = none) :
    handleEvent env event w =
      ([], Except.error (Fault.typeError "Cannot read properties of undefined")) := by
  rcases ht with h | h <;> simp [handleEvent, hm, h, hsrc]

/-- Witness for C10: a video event without `source` aborts with the
TypeError and an empty trace. -/
theorem claim10_witness :
    handleEvent ⟨"s", "tok", "key"⟩ ⟨some ⟨"video", "m10"⟩, "rt10", none⟩
      ⟨FetchOutcome.resolved ⟨true, 200, []⟩, ⟨true, 200, []⟩, SttOutcome.success none "en"⟩ =
      ([], Except.error (Fault.typeError "Cannot read properties of undefined")) :=
  claim10_missing_source_faults ⟨"s", "tok", "key"⟩
    ⟨some ⟨"video", "m10"⟩, "rt10", none⟩ ⟨"video", "m10"⟩
    ⟨FetchOutcome.resolved ⟨true, 200, []⟩, ⟨true, 200, []⟩, SttOutcome.success none "en"⟩
    rfl (Or.inr rfl) rfl

end LineTranscriber
